import Mathlib

/-!
Verification development for the Drago Decor storefront backend.

The definitions below are a shallow embedding of `src/main.py` and
`src/schemas.py`.  HTTP handlers become pure Lean functions; the
FastAPI/pydantic validation layer becomes `parse` functions returning
`Option`; the document store's `find` (which lives in `database.py`,
outside the sources at hand) is modelled from the specification's
adapter contract.  Python floats are modelled by rationals; Python
`round` (banker's rounding) is modelled exactly on rationals.
-/

/-- Outcome of an HTTP handler: a normal JSON value, an explicit
`HTTPException(status, detail)`, or an unhandled exception (surfaced by
the framework as a 500). -/
inductive ApiResult (α : Type) where
  | ok : α → ApiResult α
  | httpError : Nat → String → ApiResult α
  | crash : String → ApiResult α
deriving DecidableEq

/-- Value of a single hexadecimal digit character, `none` when the
character is not a hex digit. -/
def hexDigitVal (c : Char) : Option Nat :=
  if '0' ≤ c ∧ c ≤ '9' then some (c.toNat - '0'.toNat)
  else if 'a' ≤ c ∧ c ≤ 'f' then some (c.toNat - 'a'.toNat + 10)
  else if 'A' ≤ c ∧ c ≤ 'F' then some (c.toNat - 'A'.toNat + 10)
  else none

/-- Accumulating base-16 evaluation of a digit list; fails on the first
non-hex character, mirroring `int(s, 16)` raising `ValueError`. -/
def hexValFold : List Char → Nat → Option Nat
  | [], acc => some acc
  | c :: cs, acc =>
    match hexDigitVal c with
    | some d => hexValFold cs (16 * acc + d)
    | none => none

/-- Python `int(s, 16)` on a plain string of hex digits: fails on the
empty string and on any non-hex-digit character. -/
def int_base16 (s : String) : Option Nat :=
  match s.toList with
  | [] => none
  | _ => hexValFold s.toList 0

/-- Python slicing `s[i:j]` (for `0 ≤ i ≤ j`). -/
def pySlice (s : String) (i j : Nat) : String :=
  String.mk ((s.toList.drop i).take (j - i))

/-- Python `s.startswith("#")`. -/
def pyStartsWithHash (s : String) : Bool :=
  match s.toList with
  | '#' :: _ => true
  | _ => false

/-- Python `len(s)`. -/
def pyLen (s : String) : Nat := s.toList.length

/-- Uppercase hexadecimal digit for a value below 16. -/
def hexDigitU (n : Nat) : Char :=
  if n < 10 then Char.ofNat ('0'.toNat + n) else Char.ofNat ('A'.toNat + (n - 10))

/-- Python `f"{n:02X}"` for `n < 256`: two uppercase hex digits. -/
def toHex2 (n : Nat) : String :=
  String.mk [hexDigitU (n / 16 % 16), hexDigitU (n % 16)]

/-- `GET /api/visualizer/complementary` handler (`main.py`,
`complementary`): format check, channel parsing via `int(_, 16)`,
complement `255 - channel`, and the triad suggestion list
`[comp, "#RBG", "#GRB"]` built from the complement's channels. -/
def complementary (color : String) : ApiResult (String × List String) :=
  if pyStartsWithHash color = false ∨ pyLen color ≠ 7 then
    ApiResult.httpError 400 "Formato colore non valido. Usa HEX #RRGGBB"
  else
    match int_base16 (pySlice color 1 3), int_base16 (pySlice color 3 5),
        int_base16 (pySlice color 5 7) with
    | some rv, some gv, some bv =>
      let r := 255 - rv
      let g := 255 - gv
      let b := 255 - bv
      let comp := "#" ++ toHex2 r ++ toHex2 g ++ toHex2 b
      ApiResult.ok (comp,
        [comp,
         "#" ++ toHex2 r ++ toHex2 b ++ toHex2 g,
         "#" ++ toHex2 g ++ toHex2 r ++ toHex2 b])
    | _, _, _ => ApiResult.crash "ValueError: invalid literal for int() with base 16"

example : complementary "#000000" =
    ApiResult.ok ("#FFFFFF", ["#FFFFFF", "#FFFFFF", "#FFFFFF"]) := by decide

example : complementary "#336699" =
    ApiResult.ok ("#CC9966", ["#CC9966", "#CC6699", "#99CC66"]) := by decide

example : complementary "336699" =
    ApiResult.httpError 400 "Formato colore non valido. Usa HEX #RRGGBB" := by decide

example : complementary "#GGGGGG" =
    ApiResult.crash "ValueError: invalid literal for int() with base 16" := by decide

/-- Claim C1: for every input of the form `#RRGGBB` whose six trailing
characters are hex digits (with digit values `v1..v6`), `complementary`
returns the complement `#(255-R)(255-G)(255-B)` in two uppercase hex
digits per channel, and suggestions are exactly the complement, the
complement with G and B swapped, and the complement with R and G
swapped keeping the complement's B. -/
theorem C1_complementary_triad (c1 c2 c3 c4 c5 c6 : Char) (v1 v2 v3 v4 v5 v6 : Nat)
    (h1 : hexDigitVal c1 = some v1) (h2 : hexDigitVal c2 = some v2)
    (h3 : hexDigitVal c3 = some v3) (h4 : hexDigitVal c4 = some v4)
    (h5 : hexDigitVal c5 = some v5) (h6 : hexDigitVal c6 = some v6) :
    complementary (String.mk ['#', c1, c2, c3, c4, c5, c6]) =
      ApiResult.ok
        ("#" ++ toHex2 (255 - (16 * v1 + v2)) ++ toHex2 (255 - (16 * v3 + v4))
             ++ toHex2 (255 - (16 * v5 + v6)),
         ["#" ++ toHex2 (255 - (16 * v1 + v2)) ++ toHex2 (255 - (16 * v3 + v4))
             ++ toHex2 (255 - (16 * v5 + v6)),
          "#" ++ toHex2 (255 - (16 * v1 + v2)) ++ toHex2 (255 - (16 * v5 + v6))
             ++ toHex2 (255 - (16 * v3 + v4)),
          "#" ++ toHex2 (255 - (16 * v3 + v4)) ++ toHex2 (255 - (16 * v1 + v2))
             ++ toHex2 (255 - (16 * v5 + v6))]) := by
  simp [complementary, pyStartsWithHash, pyLen, pySlice, int_base16, hexValFold,
        String.toList, h1, h2, h3, h4, h5, h6]

/-- Witness for C1 at the spec's worked example `#336699`: complement
`#CC9966`, suggestions `#CC9966`, `#CC6699`, `#99CC66`. -/
theorem C1_complementary_triad_witness :
    complementary (String.mk ['#', '3', '3', '6', '6', '9', '9']) =
      ApiResult.ok ("#CC9966", ["#CC9966", "#CC6699", "#99CC66"]) :=
  (C1_complementary_triad '3' '3' '6' '6' '9' '9' 3 3 6 6 9 9
    (by decide) (by decide) (by decide) (by decide) (by decide) (by decide)).trans
    (by decide)

/-- Claim C4: the handler answers HTTP 400 (invalid color format) if and
only if the input does not start with `#` or its length differs from 7;
in particular `336699` and `#3366` both get a 400. -/
theorem C4_complementary_format_check (color : String) :
    ((∃ msg, complementary color = ApiResult.httpError 400 msg) ↔
      (pyStartsWithHash color = false ∨ pyLen color ≠ 7)) ∧
    complementary "336699" =
      ApiResult.httpError 400 "Formato colore non valido. Usa HEX #RRGGBB" ∧
    complementary "#3366" =
      ApiResult.httpError 400 "Formato colore non valido. Usa HEX #RRGGBB" := by
  refine ⟨⟨fun h => ?_, fun h => ?_⟩, by decide, by decide⟩
  · by_contra hc
    rw [complementary, if_neg hc] at h
    obtain ⟨msg, h⟩ := h
    rcases hr : int_base16 (pySlice color 1 3) with _ | rv <;>
      rcases hg : int_base16 (pySlice color 3 5) with _ | gv <;>
      rcases hb : int_base16 (pySlice color 5 7) with _ | bv <;>
      simp [hr, hg, hb] at h
  · exact ⟨"Formato colore non valido. Usa HEX #RRGGBB", by rw [complementary, if_pos h]⟩

/-- Claim C5: `#GGGGGG` passes the format check (starts with `#`, length
7) yet its channel parsing raises an unhandled exception (an HTTP 500),
not the 400 InvalidColorFormat response. -/
theorem C5_non_hex_crashes :
    pyStartsWithHash "#GGGGGG" = true ∧ pyLen "#GGGGGG" = 7 ∧
    complementary "#GGGGGG" =
      ApiResult.crash "ValueError: invalid literal for int() with base 16" := by
  decide

/-- Python `max(a, b)` on two numbers: the first argument when it is
the larger (or on ties), else the second. -/
def pyMax (a b : ℚ) : ℚ := if b ≤ a then a else b

/-- Nearest integer to a rational with ties going to the even integer,
the rounding Python's `round` performs. -/
def roundHalfEven (x : ℚ) : ℤ :=
  let f := Int.floor x
  let r := x - f
  if r < 1 / 2 then f
  else if 1 / 2 < r then f + 1
  else if f % 2 = 0 then f else f + 1

/-- Python `round(x, 2)`. -/
def pyRound2 (x : ℚ) : ℚ := (roundHalfEven (x * 100) : ℚ) / 100

/-- `POST /api/coverage` handler body (`main.py`, `coverage`):
`litri = round((mq * mano) / max(0.1, resa_mq_litro), 2)`. -/
def coverage (mq : ℚ) (mano : ℤ) (resa_mq_litro : ℚ) : ℚ :=
  pyRound2 ((mq * (mano : ℚ)) / pyMax (1 / 10) resa_mq_litro)

/-- `POST /api/coverage` with pydantic defaults applied to the request
body: `mano` defaults to 2 and `resa_mq_litro` to 10.0 when omitted. -/
def coverage_route (mq : ℚ) (mano : Option ℤ) (resa_mq_litro : Option ℚ) : ℚ :=
  coverage mq (mano.getD 2) (resa_mq_litro.getD 10)

/-- Claim C3: the coverage endpoint returns
`round(mq * mano / max(0.1, resa_mq_litro), 2)`, with `mano` defaulting
to 2 and `resa_mq_litro` to 10.0 when omitted; `{mq:20, mano:2,
resa:10}` gives 4.0 and `{mq:10, mano:1, resa:0.05}` gives 100.0 via
the 0.1 clamp. -/
theorem C3_coverage_formula (mq : ℚ) (mano : ℤ) (resa : ℚ) :
    coverage mq mano resa = pyRound2 ((mq * (mano : ℚ)) / pyMax (1 / 10) resa) ∧
    coverage_route mq none none = coverage mq 2 10 ∧
    coverage 20 2 10 = 4 ∧
    coverage 10 1 (1 / 20) = 100 := by
  refine ⟨rfl, rfl, ?_, ?_⟩ <;>
    norm_num [coverage, coverage_route, pyRound2, pyMax, roundHalfEven]

/-- Allowed values of `ProductVariant.finish` (`schemas.py`, `Literal`). -/
def finishValues (s : String) : Bool :=
  s == "opaco" || s == "seta" || s == "lucido" || s == "satinato" || s == "opaco-prof"

/-- Allowed values of `Product.usage` (`schemas.py`, `Literal`). -/
def usageValues (s : String) : Bool :=
  s == "interno" || s == "esterno" || s == "entrambi"

/-- Allowed values of `Order.status` (`schemas.py`, `Literal`). -/
def statusValues (s : String) : Bool :=
  s == "pending" || s == "paid" || s == "shipped"

/-- Allowed values of `Professional.tier` (`schemas.py`, `Literal`). -/
def tierValues (s : String) : Bool :=
  s == "standard" || s == "pro" || s == "elite"

/-- Validated `ProductVariant` (`schemas.py`). -/
structure ProductVariant where
  color_name : String
  hex : String
  finish : String
  stock : Int
deriving DecidableEq

/-- Inbound JSON for a `ProductVariant` before validation: each field
either present or absent. -/
structure RawProductVariant where
  color_name : Option String
  hex : Option String
  finish : Option String
  stock : Option Int
deriving DecidableEq

/-- Pydantic validation of `ProductVariant`: `color_name` and `hex`
required, `finish` defaults to `"opaco"` and must be a legal finish,
`stock` defaults to 0 and must be `≥ 0`; `none` is a 422 rejection. -/
def ProductVariant.parse (r : RawProductVariant) : Option ProductVariant :=
  match r.color_name, r.hex with
  | some cn, some hx =>
    let fin := r.finish.getD "opaco"
    let st := r.stock.getD 0
    if finishValues fin = true ∧ 0 ≤ st then some ⟨cn, hx, fin, st⟩ else none
  | _, _ => none

/-- Validated `Product` (`schemas.py`). -/
structure Product where
  title : String
  description : String
  category : String
  usage : String
  base_price : ℚ
  variants : List ProductVariant
  tech_sheet_url : Option String
  images : List String
deriving DecidableEq

/-- Inbound JSON for a `Product` before validation. -/
structure RawProduct where
  title : Option String
  description : Option String
  category : Option String
  usage : Option String
  base_price : Option ℚ
  variants : Option (List RawProductVariant)
  tech_sheet_url : Option String
  images : Option (List String)
deriving DecidableEq

/-- Pydantic validation of `Product`: `title`, `description`,
`category`, `base_price` required with `base_price ≥ 0`; `usage`
defaults to `"interno"` and must be a legal usage; `variants` defaults
to `[]`, each element validated; `images` defaults to `[]`. -/
def Product.parse (r : RawProduct) : Option Product :=
  match r.title, r.description, r.category, r.base_price with
  | some ti, some de, some ca, some bp =>
    match (r.variants.getD []).mapM ProductVariant.parse with
    | some vs =>
      let us := r.usage.getD "interno"
      if usageValues us = true ∧ 0 ≤ bp then
        some ⟨ti, de, ca, us, bp, vs, r.tech_sheet_url, r.images.getD []⟩
      else none
    | none => none
  | _, _, _, _ => none

/-- Validated `Review` (`schemas.py`). -/
structure Review where
  product_id : String
  rating : Int
  author : String
  comment : Option String
deriving DecidableEq

/-- Inbound JSON for a `Review` before validation. -/
structure RawReview where
  product_id : Option String
  rating : Option Int
  author : Option String
  comment : Option String
deriving DecidableEq

/-- Pydantic validation of `Review`: `product_id`, `rating`, `author`
required, `1 ≤ rating ≤ 5`, `comment` optional. -/
def Review.parse (r : RawReview) : Option Review :=
  match r.product_id, r.rating, r.author with
  | some pid, some ra, some au =>
    if 1 ≤ ra ∧ ra ≤ 5 then some ⟨pid, ra, au, r.comment⟩ else none
  | _, _, _ => none

/-- Validated `CartItem` (`schemas.py`). -/
structure CartItem where
  product_id : String
  variant_hex : Option String
  quantity : Int
  unit_price : ℚ
deriving DecidableEq

/-- Inbound JSON for a `CartItem` before validation. -/
structure RawCartItem where
  product_id : Option String
  variant_hex : Option String
  quantity : Option Int
  unit_price : Option ℚ
deriving DecidableEq

/-- Pydantic validation of `CartItem`: `product_id` and `unit_price`
required with `unit_price ≥ 0`; `quantity` defaults to 1 and must be
`≥ 1`; `variant_hex` optional. -/
def CartItem.parse (r : RawCartItem) : Option CartItem :=
  match r.product_id, r.unit_price with
  | some pid, some up =>
    let qty := r.quantity.getD 1
    if 1 ≤ qty ∧ 0 ≤ up then some ⟨pid, r.variant_hex, qty, up⟩ else none
  | _, _ => none

/-- Validated `Order` (`schemas.py`). -/
structure Order where
  user_email : String
  items : List CartItem
  total : ℚ
  status : String
deriving DecidableEq

/-- Inbound JSON for an `Order` before validation. -/
structure RawOrder where
  user_email : Option String
  items : Option (List RawCartItem)
  total : Option ℚ
  status : Option String
deriving DecidableEq

/-- Pydantic validation of `Order`: `user_email`, `items`, `total`
required with `total ≥ 0` and every item validated; `status` defaults
to `"pending"` and must be a legal status. -/
def Order.parse (r : RawOrder) : Option Order :=
  match r.user_email, r.items, r.total with
  | some em, some rawItems, some tot =>
    match rawItems.mapM CartItem.parse with
    | some its =>
      let st := r.status.getD "pending"
      if statusValues st = true ∧ 0 ≤ tot then some ⟨em, its, tot, st⟩ else none
    | none => none
  | _, _, _ => none

/-- Validated `Professional` (`schemas.py`). -/
structure Professional where
  business_name : String
  vat : Option String
  email : String
  tier : String
deriving DecidableEq

/-- Inbound JSON for a `Professional` before validation. -/
structure RawProfessional where
  business_name : Option String
  vat : Option String
  email : Option String
  tier : Option String
deriving DecidableEq

/-- Pydantic validation of `Professional`: `business_name` and `email`
required; `vat` optional; `tier` defaults to `"standard"` and must be a
legal tier. -/
def Professional.parse (r : RawProfessional) : Option Professional :=
  match r.business_name, r.email with
  | some bn, some em =>
    let ti := r.tier.getD "standard"
    if tierValues ti = true then some ⟨bn, r.vat, em, ti⟩ else none
  | _, _ => none

/-- Claim C6: validation rejects a Review with rating 6, an Order with
total -1, and a ProductVariant with stock -1, while the boundary values
rating 1 and 5, total 0 and stock 0 are accepted. -/
theorem C6_validation_bounds :
    Review.parse ⟨some "p1", some 6, some "anna", none⟩ = none ∧
    (Review.parse ⟨some "p1", some 1, some "anna", none⟩).isSome = true ∧
    (Review.parse ⟨some "p1", some 5, some "anna", none⟩).isSome = true ∧
    Order.parse ⟨some "a@b.it", some [], some (-1), none⟩ = none ∧
    (Order.parse ⟨some "a@b.it", some [], some 0, none⟩).isSome = true ∧
    ProductVariant.parse ⟨some "bianco", some "#FFFFFF", none, some (-1)⟩ = none ∧
    (ProductVariant.parse ⟨some "bianco", some "#FFFFFF", none, some 0⟩).isSome = true := by
  norm_num [Review.parse, Order.parse, ProductVariant.parse, statusValues,
    finishValues, List.mapM, List.mapM.loop]

/-- Claim C9: fields without `?` in the spec's field table are in fact
optional with defaults: omitted `usage` becomes `"interno"`, omitted
variant `finish`/`stock` become `"opaco"`/0, omitted Order `status`
becomes `"pending"`, omitted CartItem `quantity` becomes 1, omitted
Professional `tier` becomes `"standard"`; all such payloads are
accepted. -/
theorem C9_optional_fields_defaults :
    (Product.parse ⟨some "t", some "d", some "pitture", none, some 1, none, none,
        none⟩).map Product.usage = some "interno" ∧
    (ProductVariant.parse ⟨some "bianco", some "#FFFFFF", none, none⟩).map
        (fun v => (v.finish, v.stock)) = some ("opaco", 0) ∧
    (Order.parse ⟨some "a@b.it", some [], some 0, none⟩).map Order.status =
        some "pending" ∧
    (CartItem.parse ⟨some "p1", none, none, some 1⟩).map CartItem.quantity = some 1 ∧
    (Professional.parse ⟨some "studio", none, some "a@b.it", none⟩).map
        Professional.tier = some "standard" := by
  norm_num [Product.parse, ProductVariant.parse, Order.parse, CartItem.parse,
    Professional.parse, usageValues, finishValues, statusValues, tierValues,
    List.mapM, List.mapM.loop]

/-- Checks whether the first list is a prefix of the second. -/
def listPrefixOf : List Char → List Char → Bool
  | [], _ => true
  | _ :: _, [] => false
  | a :: as, b :: bs => a == b && listPrefixOf as bs

/-- Checks whether the first list occurs contiguously in the second. -/
def listContainsSub : List Char → List Char → Bool
  | needle, [] => listPrefixOf needle []
  | needle, b :: bs => listPrefixOf needle (b :: bs) || listContainsSub needle bs

/-- Modelled from the spec: the adapter's case-insensitive substring
predicate (the `$regex`/`$options: "i"` filter of `list_products`,
interpreted per §4.2 of the spec as "case-insensitive substring match";
the adapter itself lives in `database.py`, which is not among the
sources). -/
def containsCI (needle hay : String) : Bool :=
  listContainsSub (needle.toList.map Char.toLower) (hay.toList.map Char.toLower)

/-- Modelled from the spec: `find(collection, filter, limit)` of the
document store adapter (`database.py`, not among the sources): returns
the documents matching the filter, at most `limit` of them, in store
order; an empty sequence, never an error, when nothing matches. -/
def get_documents {α : Type} (store : List α) (pred : α → Bool) (limit : Nat) : List α :=
  (store.filter pred).take limit

/-- The Mongo-style filter dictionary built by `list_products`
(`main.py` lines 48-66): each key present or absent. -/
structure ProductFilter where
  category : Option String
  usage : Option String
  title_regex : Option String
  variants_hex : Option String
  variants_finish : Option String
  base_price_gte : Option ℚ
  base_price_lte : Option ℚ
deriving DecidableEq

/-- Python truthiness of an optional string: `None` and `""` are falsy. -/
def truthyStr : Option String → Bool
  | none => false
  | some s => s != ""

/-- Filter construction of `list_products`: a key is added only when the
query parameter is truthy (for the five string parameters) or not `None`
(for the two price bounds). -/
def buildProductFilter (category color finish usage q : Option String)
    (min_price max_price : Option ℚ) : ProductFilter :=
  ⟨if truthyStr category then category else none,
   if truthyStr usage then usage else none,
   if truthyStr q then q else none,
   if truthyStr color then color else none,
   if truthyStr finish then finish else none,
   min_price,
   max_price⟩

/-- Modelled from the spec: the store's evaluation of the filter built
by `list_products` on one product document — exact match on `category`
and `usage`, case-insensitive substring on `title`, exact match against
any embedded variant's `hex` or `finish`, and inclusive bounds on
`base_price`; absent keys constrain nothing. -/
def ProductFilter.matchesDoc (f : ProductFilter) (p : Product) : Bool :=
  (match f.category with | none => true | some c => p.category == c) &&
  (match f.usage with | none => true | some u => p.usage == u) &&
  (match f.title_regex with | none => true | some s => containsCI s p.title) &&
  (match f.variants_hex with | none => true | some c => p.variants.any fun v => v.hex == c) &&
  (match f.variants_finish with | none => true | some fi => p.variants.any fun v => v.finish == fi) &&
  (match f.base_price_gte with | none => true | some m => decide (m ≤ p.base_price)) &&
  (match f.base_price_lte with | none => true | some m => decide (p.base_price ≤ m))

/-- `GET /api/products` handler (`main.py`, `list_products`) with an
explicit row cap. -/
def list_products (store : List Product) (category color finish usage q : Option String)
    (min_price max_price : Option ℚ) (limit : Nat) : List Product :=
  get_documents store
    ((buildProductFilter category color finish usage q min_price max_price).matchesDoc)
    limit

/-- `GET /api/products` as routed: the `limit` query parameter defaults
to 50 when absent. -/
def list_products_route (store : List Product)
    (category color finish usage q : Option String)
    (min_price max_price : Option ℚ) (limit : Option Nat) : List Product :=
  list_products store category color finish usage q min_price max_price (limit.getD 50)

/-- `GET /api/reviews/\x7bproduct_id\x7d` handler (`main.py`,
`get_reviews`): single exact-match filter on `product_id`, cap 100. -/
def get_reviews (store : List Review) (product_id : String) : List Review :=
  get_documents store (fun d => d.product_id == product_id) 100

theorem matchesDoc_eq_true_iff (f : ProductFilter) (p : Product) :
    f.matchesDoc p = true ↔
      ((∀ c, f.category = some c → p.category = c) ∧
       (∀ u, f.usage = some u → p.usage = u) ∧
       (∀ s, f.title_regex = some s → containsCI s p.title = true) ∧
       (∀ c, f.variants_hex = some c → ∃ v ∈ p.variants, v.hex = c) ∧
       (∀ fi, f.variants_finish = some fi → ∃ v ∈ p.variants, v.finish = fi) ∧
       (∀ m, f.base_price_gte = some m → m ≤ p.base_price) ∧
       (∀ m, f.base_price_lte = some m → p.base_price ≤ m)) := by
  rcases f with ⟨c, u, s, ch, cf, g, l⟩
  cases c <;> cases u <;> cases s <;> cases ch <;> cases cf <;> cases g <;> cases l <;>
    simp [ProductFilter.matchesDoc, List.any_eq_true, and_assoc]

/-- Claim C2: a product is returned by `GET /api/products` only if it
satisfies every supplied (truthy) filter: exact `category` and `usage`,
case-insensitive substring `q` on the title only, `color` and `finish`
against some embedded variant, and inclusive `min_price`/`max_price`
bounds on `base_price`; the `limit` query parameter defaults to 50
with no enforced upper bound. -/
theorem C2_products_conjunctive_filter (store : List Product)
    (category color finish usage q : Option String) (mn mx : Option ℚ)
    (limit : Option Nat) (p : Product)
    (hp : p ∈ list_products_route store category color finish usage q mn mx limit) :
    (∀ c, category = some c → c ≠ "" → p.category = c) ∧
    (∀ u, usage = some u → u ≠ "" → p.usage = u) ∧
    (∀ s, q = some s → s ≠ "" → containsCI s p.title = true) ∧
    (∀ c, color = some c → c ≠ "" → ∃ v ∈ p.variants, v.hex = c) ∧
    (∀ fi, finish = some fi → fi ≠ "" → ∃ v ∈ p.variants, v.finish = fi) ∧
    (∀ m, mn = some m → m ≤ p.base_price) ∧
    (∀ m, mx = some m → p.base_price ≤ m) ∧
    (limit = none →
      list_products_route store category color finish usage q mn mx limit =
        list_products store category color finish usage q mn mx 50) := by
  have hf : (buildProductFilter category color finish usage q mn mx).matchesDoc p
      = true := by
    have hm : p ∈ List.filter
        ((buildProductFilter category color finish usage q mn mx).matchesDoc) store :=
      List.mem_of_mem_take hp
    exact (List.mem_filter.mp hm).2
  obtain ⟨h1, h2, h3, h4, h5, h6, h7⟩ := (matchesDoc_eq_true_iff _ p).mp hf
  refine ⟨?_, ?_, ?_, ?_, ?_, ?_, ?_, ?_⟩
  · intro c hc hne
    exact h1 c (by simp [buildProductFilter, truthyStr, hc, hne])
  · intro u hu hne
    exact h2 u (by simp [buildProductFilter, truthyStr, hu, hne])
  · intro s hs hne
    exact h3 s (by simp [buildProductFilter, truthyStr, hs, hne])
  · intro c hc hne
    exact h4 c (by simp [buildProductFilter, truthyStr, hc, hne])
  · intro fi hfi hne
    exact h5 fi (by simp [buildProductFilter, truthyStr, hfi, hne])
  · intro m hm
    exact h6 m (by simp [buildProductFilter, hm])
  · intro m hm
    exact h7 m (by simp [buildProductFilter, hm])
  · intro hl
    rw [hl]
    rfl

/-- A one-product store used to exercise the listing filters on
concrete data. -/
def sampleProduct : Product :=
  ⟨"Pittura Lavabile Extra", "pittura murale lavabile", "pitture", "interno", 15,
   [⟨"bianco", "#FFFFFF", "opaco", 10⟩], none, []⟩

/-- Witness for C2: with every string filter supplied and satisfied,
the sample product is returned and the theorem yields its category. -/
theorem C2_products_conjunctive_filter_witness :
    sampleProduct.category = "pitture" ∧
    (∃ v ∈ sampleProduct.variants, v.hex = "#FFFFFF") := by
  have h := C2_products_conjunctive_filter [sampleProduct] (some "pitture")
    (some "#FFFFFF") (some "opaco") (some "interno") (some "lavabile") none none
    none sampleProduct
    (by simp [list_products_route, list_products, get_documents, buildProductFilter,
      ProductFilter.matchesDoc, truthyStr, sampleProduct, containsCI,
      listContainsSub, listPrefixOf])
  exact ⟨h.1 "pitture" rfl (by simp), h.2.2.2.1 "#FFFFFF" rfl (by simp)⟩

/-- Claim C10: an empty-string `category`, `usage`, `q`, `color` or
`finish` adds no predicate (results are as if the parameter were
absent), while `min_price`/`max_price` are applied whenever supplied,
including at the value 0. -/
theorem C10_empty_string_params_ignored (store : List Product)
    (category color finish usage q : Option String) (mn mx : Option ℚ)
    (limit : Nat) (v : ℚ) :
    list_products store (some "") color finish usage q mn mx limit =
      list_products store none color finish usage q mn mx limit ∧
    list_products store category (some "") finish usage q mn mx limit =
      list_products store category none finish usage q mn mx limit ∧
    list_products store category color (some "") usage q mn mx limit =
      list_products store category color none usage q mn mx limit ∧
    list_products store category color finish (some "") q mn mx limit =
      list_products store category color finish none q mn mx limit ∧
    list_products store category color finish usage (some "") mn mx limit =
      list_products store category color finish usage none mn mx limit ∧
    (buildProductFilter category color finish usage q (some v) mx).base_price_gte
      = some v ∧
    (buildProductFilter category color finish usage q (some 0) mx).base_price_gte
      = some 0 ∧
    (buildProductFilter category color finish usage q mn (some v)).base_price_lte
      = some v ∧
    (buildProductFilter category color finish usage q mn (some 0)).base_price_lte
      = some 0 := by
  refine ⟨?_, ?_, ?_, ?_, ?_, rfl, rfl, rfl, rfl⟩ <;>
    simp [list_products, buildProductFilter, truthyStr]

/-- Claim C7: `GET /api/reviews/\x7bproduct_id\x7d` filters by exact
`product_id` match only, caps the result at 100, and returns an empty
list (a normal 200 response in the handler's total function model, not
an error) when no stored review matches. -/
theorem C7_reviews_exact_match_empty_ok (store : List Review) (pid : String) :
    get_reviews store pid = (store.filter fun d => d.product_id == pid).take 100 ∧
    (∀ d ∈ get_reviews store pid, d.product_id = pid) ∧
    (get_reviews store pid).length ≤ 100 ∧
    ((∀ d ∈ store, d.product_id ≠ pid) → get_reviews store pid = []) := by
  refine ⟨rfl, ?_, ?_, ?_⟩
  · intro d hd
    have hm : d ∈ store.filter fun d => d.product_id == pid :=
      List.mem_of_mem_take hd
    exact beq_iff_eq.mp (List.mem_filter.mp hm).2
  · exact List.length_take_le 100 _
  · intro h
    have : (store.filter fun d => d.product_id == pid) = [] := by
      rw [List.filter_eq_nil_iff]
      intro d hd
      simpa using h d hd
    simp [get_reviews, get_documents, this]

/-- Witness for C7: a store holding one review of product `p1` yields
the empty list for the unknown product id `p2`. -/
theorem C7_reviews_exact_match_empty_ok_witness :
    get_reviews [⟨"p1", 5, "anna", none⟩] "p2" = [] :=
  (C7_reviews_exact_match_empty_ok [⟨"p1", 5, "anna", none⟩] "p2").2.2.2
    (by simp)

/-- The store handle as the diagnostics endpoint sees it: a possible
`name` attribute and the outcome of `list_collection_names()` (a name
list, or a raised exception carried as its message). -/
structure DbHandle where
  name : Option String
  collectionNames : Except String (List String)

/-- The two environment variables the diagnostics endpoint presence-checks. -/
structure EnvState where
  database_url : Option String
  database_name : Option String

/-- The diagnostics response object of `GET /test`. -/
structure TestResponse where
  backend : String
  database : String
  database_url : String
  database_name : String
  connection_status : String
  collections : List String
deriving DecidableEq

/-- Python `str(e)[:50]`. -/
def pyTruncate50 (s : String) : String := String.mk (s.toList.take 50)

/-- `"✅ Set" if os.getenv(var) else "❌ Not Set"`: an unset variable and
an empty value are both falsy. -/
def envFlag : Option String → String
  | none => "❌ Not Set"
  | some s => if s != "" then "✅ Set" else "❌ Not Set"

/-- `GET /test` handler (`main.py`, `test_database`).  The intermediate
`database_url`/`database_name` assignments of the handler body are
unconditionally overwritten by the final presence flags, so the
response is built directly with those flags. -/
def test_database (db : Option DbHandle) (env : EnvState) : TestResponse :=
  let dbField :=
    match db with
    | some h =>
      match h.collectionNames with
      | Except.ok _ => "✅ Connected & Working"
      | Except.error e => "⚠️  Connected but Error: " ++ pyTruncate50 e
    | none => "⚠️  Available but not initialized"
  let connStatus := match db with | some _ => "Connected" | none => "Not Connected"
  let cols :=
    match db with
    | some h =>
      match h.collectionNames with
      | Except.ok cs => cs.take 10
      | Except.error _ => []
    | none => []
  ⟨"✅ Running", dbField, envFlag env.database_url, envFlag env.database_name,
   connStatus, cols⟩

/-- Claim C8: for every store-handle state and environment, `GET /test`
returns a diagnostics object (no exception escapes the total handler):
the environment variables appear only as presence flags and never by
value, at most 10 collection names are listed, and a raised
`list_collection_names` is rendered inline as a status string carrying
at most 50 characters of the message. -/
theorem C8_diagnostics_safe (db : Option DbHandle) (env : EnvState)
    (nm : Option String) (e : String) :
    ((test_database db env).database_url = "✅ Set" ∨
      (test_database db env).database_url = "❌ Not Set") ∧
    ((test_database db env).database_name = "✅ Set" ∨
      (test_database db env).database_name = "❌ Not Set") ∧
    (test_database db env).collections.length ≤ 10 ∧
    (test_database (some ⟨nm, Except.error e⟩) env).database =
      "⚠️  Connected but Error: " ++ pyTruncate50 e ∧
    (pyTruncate50 e).length ≤ 50 := by
  refine ⟨?_, ?_, ?_, rfl, ?_⟩
  · rcases env with ⟨u, n⟩
    rcases u with _ | u
    · exact Or.inr rfl
    · by_cases h : u = "" <;> simp [test_database, envFlag, h]
  · rcases env with ⟨u, n⟩
    rcases n with _ | n
    · exact Or.inr rfl
    · by_cases h : n = "" <;> simp [test_database, envFlag, h]
  · rcases db with _ | h
    · simp [test_database]
    · rcases h with ⟨hn, hc⟩
      rcases hc with e' | cs <;>
        simp [test_database, List.length_take_le]
  · have : (pyTruncate50 e).length = (e.toList.take 50).length := rfl
    rw [this]
    exact List.length_take_le 50 _
